import Mathlib

/-!
Verification of the DGP (Dynamic Gravity Processor) specification.

Shallow embedding of the core mechanisms of the DGP repository:

* the `ExportProfile` registry and its JSON round-trip
  (`src/dgp/lib/exporters/export_profile.py`);
* the observer registration on tree nodes and the segment-select update
  handler (`src/dgp/gui/workspaces/dataset.py`, with the controller layer
  modelled from the specification where the controller sources are not part
  of the excerpt);
* the one-shot `FileLoader` background task (modelled from the
  specification; only its tests, `src/tests/test_loader.py`, are in the
  excerpt);
* the Qt signal/slot delivery order in `DataSetTab.__init__`.

Python values that cross the JSON/attribute boundary are modelled by the
inductive `PyVal`; Python truthiness is `PyVal.truthy`.  Python dicts are
modelled as association lists with insertion-order-preserving overwrite
(`dictInsert`), matching CPython dict semantics.
-/

namespace DGP

/-- Python values as they appear in the JSON documents and node attributes
of this program: `None`, booleans, integers, strings and lists.  (Floats and
nested objects do not occur in the modelled schema.) -/
inductive PyVal where
  | none
  | bool (b : Bool)
  | int (n : Int)
  | str (s : String)
  | list (xs : List PyVal)
  | dict (entries : List (String × PyVal))

/-- Python truthiness for the modelled values: `None`, `False`, `0`, `""`,
`[]` and the empty dict are falsy, everything else is truthy. -/
def PyVal.truthy : PyVal → Bool
  | .none => false
  | .bool b => b
  | .int n => n != 0
  | .str s => s != ""
  | .list xs => !xs.isEmpty
  | .dict es => !es.isEmpty

/-- A Python dict with string keys, as an association list in insertion
order. -/
abbrev PyDict (α : Type) := List (String × α)

/-- First-match lookup in an association list (CPython dicts have unique
keys, so on well-formed dicts this is the dict lookup). -/
def dictLookup (k : String) : PyDict α → Option α
  | [] => Option.none
  | (k', v) :: rest => if k' = k then some v else dictLookup k rest

/-- CPython dict assignment `d[k] = v`: overwrites the value in place when
the key is present (keeping its position in insertion order), otherwise
appends the new binding at the end. -/
def dictInsert (k : String) (v : α) : PyDict α → PyDict α
  | [] => [(k, v)]
  | (k', v') :: rest =>
      if k' = k then (k, v) :: rest else (k', v') :: dictInsert k v rest

/-- The keys of a dict, in insertion order. -/
def dictKeys (d : PyDict α) : List String := d.map Prod.fst

/-- Dict well-formedness: keys occur at most once. -/
def keysNodup (d : PyDict α) : Prop := (dictKeys d).Nodup


/-!
The export-profile registry, `src/dgp/lib/exporters/export_profile.py`.

The class-level dict `ExportProfile.__profiles` is modelled as an explicit
`Registry` value threaded through the operations; `__init__` is modelled by
`ExportProfile.init` (returning the constructed profile and the possibly
updated registry, or the exception kind it raises), and the
`cls(**obj)` call performed by the JSON `object_hook` is modelled by
`ExportProfile.initFromDict` over the parsed JSON object.
-/

/-- Enumeration `TimeFormat` with its single member `ISO8601`. -/
inductive TimeFormat where
  | ISO8601
  deriving Repr, DecidableEq

/-- Value of the enum member, `'%Y-%m-%dT%H:%M:%S.%f%z'`. -/
def TimeFormat.value : TimeFormat → String
  | .ISO8601 => "%Y-%m-%dT%H:%M:%S.%f%z"

/-- Lookup of an enum member by value, as in `TimeFormat(dateformat)`;
`Option.none` models the `ValueError` raised by Python enums when no member
has the given value. -/
def TimeFormat.fromValue (s : String) : Option TimeFormat :=
  if s = TimeFormat.ISO8601.value then some TimeFormat.ISO8601 else Option.none

/-- Instance attributes of `ExportProfile`, in `__dict__` order:
`name`, `columns`, `ext`, `precision`, `dateformat`, `_userprofile`. -/
structure ExportProfile where
  name : String
  columns : List String
  ext : String
  precision : Int
  dateformat : TimeFormat
  _userprofile : Bool
  deriving Repr, DecidableEq

/-- State of the class-level dict `ExportProfile.__profiles`. -/
abbrev Registry := PyDict ExportProfile

/-- Classmethod `register`: `cls.__profiles[profile.name] = profile`. -/
def ExportProfile.register (reg : Registry) (p : ExportProfile) : Registry :=
  dictInsert p.name p reg

/-- Classmethod `names`: the keys of the registry, in insertion order (the
generator is modelled as the list it yields). -/
def ExportProfile.names (reg : Registry) : List String :=
  dictKeys reg

/-- Classmethod `profiles`: the values of the registry, in insertion order
(the generator is modelled as the list it yields). -/
def ExportProfile.profiles (reg : Registry) : List ExportProfile :=
  reg.map Prod.snd

/-- Property `readonly`: `not self._userprofile`. -/
def ExportProfile.readonly (p : ExportProfile) : Bool :=
  !p._userprofile

/-- Exception kinds observable from `__init__` and `from_json`.
`typeMismatch` is the boundary of this typed embedding: it marks inputs on
which CPython, being untyped, would store a value of an unexpected type in
the instance attribute rather than raise; no theorem below reaches it. -/
inductive InitError where
  | valueError
  | typeError
  | typeMismatch
  deriving Repr, DecidableEq

/-- Argument passed for the `dateformat` parameter of `__init__`, which
accepts either a format string or a `TimeFormat` member. -/
inductive DateFmtArg where
  | ofStr (s : String)
  | ofFmt (t : TimeFormat)
  deriving Repr, DecidableEq

/-- Body of the `dateformat` branch of `__init__`: a string is converted
with `TimeFormat(dateformat)` (raising `ValueError` on an unrecognized
value), any other argument is stored as-is. -/
def resolveDateFmt : DateFmtArg → Except InitError TimeFormat
  | .ofStr s =>
      match TimeFormat.fromValue s with
      | some t => Except.ok t
      | Option.none => Except.error InitError.valueError
  | .ofFmt t => Except.ok t

/-- Constructor `ExportProfile.__init__` after call binding.  `columns` is
`Option`al with `columns or []` semantics (an explicit empty list and `None`
both become `[]`); when the `register` flag is truthy the new profile is
registered into the class-level registry as a side effect. -/
def ExportProfile.init (reg : Registry) (name : String)
    (columns : Option (List String)) (ext : String) (precision : Int)
    (dateformat : DateFmtArg) (_userprofile : Bool) (register : Bool) :
    Except InitError (ExportProfile × Registry) :=
  match resolveDateFmt dateformat with
  | Except.error e => Except.error e
  | Except.ok t =>
      let p : ExportProfile :=
        { name := name, columns := columns.getD [], ext := ext,
          precision := precision, dateformat := t, _userprofile := _userprofile }
      Except.ok (p, if register then ExportProfile.register reg p else reg)

/-- Method `copy`: `ExportProfile(**self.__dict__)`.  The instance dict
holds exactly the six attributes, so `register` takes its default `True`
and `dateformat` is passed as a `TimeFormat` member. -/
def ExportProfile.copy (reg : Registry) (p : ExportProfile) :
    Except InitError (ExportProfile × Registry) :=
  ExportProfile.init reg p.name (some p.columns) p.ext p.precision
    (DateFmtArg.ofFmt p.dateformat) p._userprofile true

/-- Method `to_json`, at the level of the parsed JSON document it produces:
`json.dumps(self.__dict__, default=_encode)` emits the six instance
attributes in insertion order, encoding the `TimeFormat` member as its
value string. -/
def ExportProfile.to_json (p : ExportProfile) : PyDict PyVal :=
  [("name", PyVal.str p.name),
   ("columns", PyVal.list (p.columns.map PyVal.str)),
   ("ext", PyVal.str p.ext),
   ("precision", PyVal.int p.precision),
   ("dateformat", PyVal.str p.dateformat.value),
   ("_userprofile", PyVal.bool p._userprofile)]

/-- Keyword parameters accepted by `ExportProfile.__init__`; any other key
in `cls(**obj)` raises `TypeError` at call binding. -/
def allowedKeys : List String :=
  ["name", "columns", "ext", "precision", "dateformat", "_userprofile",
   "register"]

/-- Call binding of `cls(**obj)`: every key must be an accepted parameter
name and the sole required parameter `name` must be present, otherwise
Python raises `TypeError` before the constructor body runs. -/
def bindingOk (obj : PyDict PyVal) : Bool :=
  obj.all (fun kv => allowedKeys.contains kv.1) &&
    (dictLookup "name" obj).isSome

/-- Decoding of a list of JSON strings (the `columns` payload). -/
def strList : List PyVal → Except InitError (List String)
  | [] => Except.ok []
  | PyVal.str s :: rest => (strList rest).map (fun ys => s :: ys)
  | _ :: _ => Except.error InitError.typeMismatch

/-- The `columns` argument extracted from the JSON object: absent or
`null` means the default `None`, a list of strings is taken as-is. -/
def decodeColumns : Option PyVal → Except InitError (Option (List String))
  | Option.none => Except.ok Option.none
  | some PyVal.none => Except.ok Option.none
  | some (PyVal.list xs) => (strList xs).map some
  | some _ => Except.error InitError.typeMismatch

/-- String-typed keyword argument with a default. -/
def getStrField (obj : PyDict PyVal) (k : String) (d : String) :
    Except InitError String :=
  match dictLookup k obj with
  | Option.none => Except.ok d
  | some (PyVal.str s) => Except.ok s
  | some _ => Except.error InitError.typeMismatch

/-- Integer-typed keyword argument with a default. -/
def getIntField (obj : PyDict PyVal) (k : String) (d : Int) :
    Except InitError Int :=
  match dictLookup k obj with
  | Option.none => Except.ok d
  | some (PyVal.int n) => Except.ok n
  | some _ => Except.error InitError.typeMismatch

/-- Boolean-typed keyword argument with a default. -/
def getBoolField (obj : PyDict PyVal) (k : String) (d : Bool) :
    Except InitError Bool :=
  match dictLookup k obj with
  | Option.none => Except.ok d
  | some (PyVal.bool b) => Except.ok b
  | some _ => Except.error InitError.typeMismatch

/-- The `dateformat` argument extracted from the JSON object: absent means
the default member `ISO8601`, a string is handed to the constructor's
string branch. -/
def getDateFmtArg (obj : PyDict PyVal) : Except InitError DateFmtArg :=
  match dictLookup "dateformat" obj with
  | Option.none => Except.ok (DateFmtArg.ofFmt TimeFormat.ISO8601)
  | some (PyVal.str s) => Except.ok (DateFmtArg.ofStr s)
  | some _ => Except.error InitError.typeMismatch

/-- Model of `cls(**obj)` as performed by the `object_hook` of `from_json`:
call binding, then the constructor body `ExportProfile.init`. -/
def ExportProfile.initFromDict (reg : Registry) (obj : PyDict PyVal) :
    Except InitError (ExportProfile × Registry) :=
  if bindingOk obj then
    match dictLookup "name" obj with
    | some (PyVal.str nm) => do
        let cols ← decodeColumns (dictLookup "columns" obj)
        let ext ← getStrField obj "ext" "dat"
        let prec ← getIntField obj "precision" 10
        let dfmt ← getDateFmtArg obj
        let up ← getBoolField obj "_userprofile" true
        let rg ← getBoolField obj "register" true
        ExportProfile.init reg nm cols ext prec dfmt up rg
    | some _ => Except.error InitError.typeMismatch
    | Option.none => Except.error InitError.typeError
  else Except.error InitError.typeError

/-- Classmethod `from_json` on a well-formed JSON document whose top level
is an object: `json.loads` parses the text into `obj` and the
`object_hook` builds (and by default registers) the profile via
`cls(**obj)`.  Parsing of the JSON text itself is not modelled; a malformed
document fails inside `json.loads` before any of this logic runs. -/
def ExportProfile.from_json (reg : Registry) (obj : PyDict PyVal) :
    Except InitError (ExportProfile × Registry) :=
  ExportProfile.initFromDict reg obj

/-- Schema typing of a single JSON key/value pair.  Keys outside the
accepted parameter list are unconstrained (call binding rejects them before
any value is inspected). -/
def schemaTypedVal : String → PyVal → Bool
  | "name", PyVal.str _ => true
  | "name", _ => false
  | "columns", PyVal.none => true
  | "columns", PyVal.list xs =>
      xs.all (fun v => match v with | PyVal.str _ => true | _ => false)
  | "columns", _ => false
  | "ext", PyVal.str _ => true
  | "ext", _ => false
  | "precision", PyVal.int _ => true
  | "precision", _ => false
  | "dateformat", PyVal.str _ => true
  | "dateformat", _ => false
  | "_userprofile", PyVal.bool _ => true
  | "_userprofile", _ => false
  | "register", PyVal.bool _ => true
  | "register", _ => false
  | _, _ => true

/-- Typed-boundary predicate on a parsed JSON object: unique keys (as
`json.loads` guarantees) and schema-conforming values for the recognized
parameters.  On inputs outside this boundary CPython stores values untyped
instead of raising; such inputs are not modelled. -/
def schemaTyped (obj : PyDict PyVal) : Bool :=
  obj.all (fun kv => schemaTypedVal kv.1 kv.2) && decide (dictKeys obj).Nodup

/-- Effective `register` flag seen by `__init__` when called through
`cls(**obj)`: the value of the `register` key when present, `True` (the
parameter default) otherwise. -/
def registerArg (obj : PyDict PyVal) : Bool :=
  match dictLookup "register" obj with
  | some (PyVal.bool b) => b
  | _ => true

/-!
The controller/observer layer and the segment-select update handler.

`StateAction` is from `src/dgp/core/types/enumerations.py`.  The `Node`
tree (dataset controller with segment children) lives in
`dgp.core.controllers`, which is not part of the excerpt; it is modelled
from the specification.  The handler `_slot_segment_changed` is translated
from `src/dgp/gui/workspaces/dataset.py`.
-/

/-- Enumeration `StateAction` from `enumerations.py`. -/
inductive StateAction where
  | CREATE
  | UPDATE
  | DELETE
  deriving Repr, DecidableEq

/-- Modelled from the spec: a tree Node (here at the leaf level, a segment)
with a unique identifier, named attributes behind get/set accessors, and a
list of registered observers, each a pair of a callback identifier and the
lifecycle action it is registered for.  The excerpt exercises exactly one
level of the tree, so segment children carry no children of their own. -/
structure Node where
  uid : Nat
  attrs : PyDict PyVal
  observers : List (Nat × StateAction)

/-- Modelled from the spec: the parent Node (a dataset controller) holding
the segment children.  Child identifiers are unique within a parent. -/
structure ParentNode where
  uid : Nat
  attrs : PyDict PyVal
  observers : List (Nat × StateAction)
  children : List Node

/-- Modelled from the spec: `register_observer(listener, callback, action)`
appends an observer registration to the node. -/
def Node.register_observer (n : Node) (cb : Nat) (action : StateAction) :
    Node :=
  { n with observers := n.observers ++ [(cb, action)] }

/-- Callbacks of a node registered for the DELETE action, in registration
order. -/
def Node.firedOnDelete (c : Node) : List Nat :=
  (c.observers.filter (fun ob => decide (ob.2 = StateAction.DELETE))).map
    Prod.fst

/-- Modelled from the spec: `get_attr` reads a named attribute through the
accessor. -/
def Node.get_attr (n : Node) (k : String) : Option PyVal :=
  dictLookup k n.attrs

/-- Modelled from the spec: `set_attr` writes a named attribute and then
invokes every callback registered for the UPDATE action on the node. -/
def Node.set_attr (n : Node) (k : String) (v : PyVal) : Node × List Nat :=
  ({ n with attrs := dictInsert k v n.attrs },
   (n.observers.filter (fun ob => decide (ob.2 = StateAction.UPDATE))).map
     Prod.fst)

/-- Modelled from the spec: `get_child` finds the child with the given
identifier. -/
def ParentNode.get_child (n : ParentNode) (u : Nat) : Option Node :=
  n.children.find? (fun c => decide (c.uid = u))

/-- Modelled from the spec: `remove_child` removes the child with the given
identifier and then invokes every callback registered for the DELETE action
on the removed child (the `confirm=False` flag used at the call site skips
a GUI confirmation and is not modelled).  The result is the mutated parent
and the list of callbacks invoked, in order. -/
def ParentNode.remove_child (n : ParentNode) (u : Nat) :
    ParentNode × List Nat :=
  ({ n with children := n.children.filter (fun c => decide (c.uid ≠ u)) },
   (n.children.filter (fun c => decide (c.uid = u))).flatMap Node.firedOnDelete)

/-- Event value `LineUpdate` (declared in `dgp.gui.plotting.helpers`,
modelled from the spec): an action kind, the target identifier, and the
optional new start/stop/label values (`PyVal.none` when absent). -/
structure LineUpdate where
  action : StateAction
  uid : Nat
  start : PyVal
  stop : PyVal
  label : PyVal

/-- UPDATE arm of `_slot_segment_changed` applied to the target segment:
each of start, stop and label is written through `set_attr` only when its
new value is truthy.  Returns the updated segment and the UPDATE callbacks
fired by the writes. -/
def applySegmentUpdate (c : Node) (u : LineUpdate) : Node × List Nat :=
  let r₁ := if u.start.truthy then c.set_attr "start" u.start else (c, [])
  let r₂ := if u.stop.truthy then r₁.1.set_attr "stop" u.stop else (r₁.1, [])
  let r₃ :=
    if u.label.truthy then r₂.1.set_attr "label" u.label else (r₂.1, [])
  (r₃.1, r₁.2 ++ r₂.2 ++ r₃.2)

/-- Handler `SegmentSelectTab._slot_segment_changed` from `dataset.py`,
acting on the dataset controller state.  DELETE removes the target child;
UPDATE writes the truthy fields of the update onto the target child;
CREATE adds a child built from the update and registers the plot segment
group `gid` as a DELETE observer on it.  Returns the new controller state
and the callbacks fired. -/
def slot_segment_changed (n : ParentNode) (u : LineUpdate) (gid : Nat) :
    ParentNode × List Nat :=
  match u.action with
  | StateAction.DELETE => n.remove_child u.uid
  | StateAction.UPDATE =>
      ({ n with children := n.children.map (fun c =>
          if c.uid = u.uid then (applySegmentUpdate c u).1 else c) },
       (n.children.filter (fun c => decide (c.uid = u.uid))).flatMap
         (fun c => (applySegmentUpdate c u).2))
  | StateAction.CREATE =>
      let c : Node :=
        { uid := u.uid,
          attrs := [("start", u.start), ("stop", u.stop), ("label", u.label)],
          observers := [(gid, StateAction.DELETE)] }
      ({ n with children := n.children ++ [c] }, [])

/-!
Workspace tab state, `DataSetTab.save_state` and `DataSetTab._tab_loaded`
from `src/dgp/gui/workspaces/dataset.py`.
-/

/-- View of a sub-tab as `save_state` and `_tab_loaded` see it: its type
name `tab.__class__.__name__` and the value its `get_state()` returns. -/
structure SubTabM where
  typeName : String
  get_state : PyVal

/-- Body of `DataSetTab.save_state`: an empty dict filled with each
sub-tab's `get_state()` keyed by the sub-tab's type name, iterating the
tabs in order. -/
def save_state (tabs : List SubTabM) : PyDict PyVal :=
  tabs.foldl (fun st t => dictInsert t.typeName t.get_state st) []

/-- State value handed to `tab.restore_state` by `DataSetTab._tab_loaded`:
`self.ws_settings.get(tab.__class__.__name__, {})`. -/
def tab_loaded_state (ws_settings : PyDict PyVal) (t : SubTabM) : PyVal :=
  match dictLookup t.typeName ws_settings with
  | some v => v
  | Option.none => PyVal.dict []

/-!
Qt signal/slot delivery and the construction order of `DataSetTab`.

A direct connection delivers an emission to exactly the slots connected to
the signal at the moment of emission.  The trace below lists, in program
order, the connect and emit events produced by `DataSetTab.__init__`
(`dataset.py`): the segment tab's `sigLoaded` is emitted from
`_dataframe_loaded` only after its background dataframe load completes,
hence after `__init__` has returned; the transform tab's `sigLoaded` is
emitted by the last statement of `DataTransformTab.__init__`, hence before
the `connect` call on the following line of `DataSetTab.__init__`.
-/

/-- Connect and emit events of the Qt signal/slot mechanism, with signals
and slots named by numbers. -/
inductive QtEv where
  | connect (sig slot : Nat)
  | emit (sig : Nat)

/-- One step of the signal/slot semantics: state is the list of
connections made so far and the log of deliveries (signal, slot) performed
so far; an emission is delivered to exactly the currently connected slots
of that signal. -/
def qtStep (st : List (Nat × Nat) × List (Nat × Nat)) (e : QtEv) :
    List (Nat × Nat) × List (Nat × Nat) :=
  match e with
  | QtEv.connect s t => (st.1 ++ [(s, t)], st.2)
  | QtEv.emit s =>
      (st.1,
       st.2 ++ (st.1.filter (fun c => decide (c.1 = s))).map
         (fun c => (s, c.2)))

/-- Run of a trace of events from the empty state. -/
def qtRun (evs : List QtEv) : List (Nat × Nat) × List (Nat × Nat) :=
  evs.foldl qtStep ([], [])

/-- Number of emissions of a signal in a trace. -/
def emitCount (evs : List QtEv) (s : Nat) : Nat :=
  (evs.filter (fun e =>
    match e with
    | QtEv.emit s' => decide (s' = s)
    | _ => false)).length

/-- Identifier of the `sigLoaded` signal of the segment select sub-tab. -/
def sigLoadedSegment : Nat := 0

/-- Identifier of the `sigLoaded` signal of the data transform sub-tab. -/
def sigLoadedTransform : Nat := 1

/-- Identifier of the `DataSetTab._tab_loaded` slot. -/
def slotTabLoaded : Nat := 2

/-- Event trace of `DataSetTab.__init__` and the subsequent completion of
the segment tab's background dataframe load, in program order:
connect the segment tab's `sigLoaded`; the transform tab emits its
`sigLoaded` from the last line of its own `__init__`; connect the
transform tab's `sigLoaded`; the segment tab emits its `sigLoaded` from
`_dataframe_loaded` once the background load completes. -/
def dataSetTabTrace : List QtEv :=
  [QtEv.connect sigLoadedSegment slotTabLoaded,
   QtEv.emit sigLoadedTransform,
   QtEv.connect sigLoadedTransform slotTabLoaded,
   QtEv.emit sigLoadedSegment]

/-!
The one-shot background task `FileLoader` (`dgp.core.file_loader`, not in
the excerpt; only its tests `src/tests/test_loader.py` are).  Modelled from
the spec.
-/

/-- Lifecycle states of the one-shot task: `Idle → Running → {Completed |
Failed}`, the last two terminal. -/
inductive LoaderState where
  | idle
  | running
  | completed
  | failed
  deriving Repr, DecidableEq

/-- Notifications a `FileLoader` run can emit: `loaded` with the result of
the loading function, or `error` with the exception it raised. -/
inductive LoaderNotif (ε α : Type) where
  | loaded (a : α)
  | error (e : ε)
  deriving Repr

/-- Modelled from the spec: `FileLoader` is constructed with a file path
and a loading function `(path) -> result`; the function's outcome is
modelled as `Except` (an exception or a result value).  The GUI-thread
owner only ties thread lifetime and is not modelled. -/
structure FileLoader (π ε α : Type) where
  path : π
  func : π → Except ε α
  state : LoaderState

/-- Modelled from the spec: the run trigger executes the loading function;
on a result it emits one `loaded` notification carrying it and completes,
on an exception it emits one `error` notification carrying it and fails. -/
def FileLoader.run (l : FileLoader π ε α) :
    FileLoader π ε α × List (LoaderNotif ε α) :=
  match l.func l.path with
  | Except.ok a =>
      ({ l with state := LoaderState.completed }, [LoaderNotif.loaded a])
  | Except.error e =>
      ({ l with state := LoaderState.failed }, [LoaderNotif.error e])

/-- Number of `loaded` notifications in an emission list. -/
def countLoaded : List (LoaderNotif ε α) → Nat
  | [] => 0
  | LoaderNotif.loaded _ :: rest => countLoaded rest + 1
  | LoaderNotif.error _ :: rest => countLoaded rest

/-- Number of `error` notifications in an emission list. -/
def countError : List (LoaderNotif ε α) → Nat
  | [] => 0
  | LoaderNotif.loaded _ :: rest => countError rest
  | LoaderNotif.error _ :: rest => countError rest + 1

/-!
Concrete example values used to exercise the theorems below on explicit
inputs.
-/

/-- Loader around a function that returns a value, as in `test_load_mock`
(the mock loader returns an empty dataframe; here a number stands in for
the tabular result). -/
def okLoaderW : FileLoader Nat String Nat :=
  { path := 0, func := fun p => Except.ok (p + 41), state := LoaderState.idle }

/-- Loader around a function that raises, as in `test_load_failure`. -/
def failLoaderW : FileLoader Nat String Nat :=
  { path := 0, func := fun _ => Except.error "FileNotFoundError",
    state := LoaderState.idle }

/-- Example segment child with no observers, uid 1. -/
def segW : Node := { uid := 1, attrs := [], observers := [] }

/-- Example dataset node with two segment children: uid 1 carrying a
DELETE observer with callback 5 (registered via `register_observer`), and
uid 2 carrying a DELETE observer with callback 6. -/
def parentW : ParentNode :=
  { uid := 0, attrs := [], observers := [],
    children :=
      [segW.register_observer 5 StateAction.DELETE,
       { uid := 2, attrs := [], observers := [(6, StateAction.DELETE)] }] }

/-- Example profile. -/
def profW : ExportProfile :=
  { name := "airborne", columns := ["gravity", "long_accel"], ext := "csv",
    precision := 6, dateformat := TimeFormat.ISO8601, _userprofile := true }

/-- A second profile under the same name. -/
def profW₂ : ExportProfile :=
  { name := "airborne", columns := ["gravity"], ext := "dat",
    precision := 10, dateformat := TimeFormat.ISO8601, _userprofile := false }

/-- Parsed JSON object with a recognized shape but an unrecognized
`dateformat` value. -/
def objBadFmtW : PyDict PyVal :=
  [("name", PyVal.str "x"), ("dateformat", PyVal.str "%Y")]

/-- Parsed JSON object carrying `register: false`. -/
def objNoRegW : PyDict PyVal :=
  [("name", PyVal.str "x"), ("register", PyVal.bool false)]

/-- Parsed JSON object with only the required `name` key. -/
def objNameOnlyW : PyDict PyVal :=
  [("name", PyVal.str "y")]

/-- Sub-tab view mirroring `SegmentSelectTab`, whose `get_state` returns a
dict of UI preferences. -/
def segTabW : SubTabM :=
  { typeName := "SegmentSelectTab",
    get_state := PyVal.dict [("channels", PyVal.list [PyVal.str "gravity"])] }

/-- Sub-tab view mirroring `DataTransformTab`, whose `get_state` returns
`None`. -/
def transTabW : SubTabM :=
  { typeName := "DataTransformTab", get_state := PyVal.none }

/-- Sub-tab view with a type name that appears in no saved state. -/
def otherTabW : SubTabM :=
  { typeName := "OtherTab", get_state := PyVal.none }

/-- The two sub-tabs of `DataSetTab`, in `workspace` order. -/
def tabsW : List SubTabM := [segTabW, transTabW]

/-- Example dataset node for the segment update handler: two children with
start/stop/label attributes. -/
def parentUpdW : ParentNode :=
  { uid := 0, attrs := [], observers := [],
    children :=
      [{ uid := 1,
         attrs := [("start", PyVal.int 1), ("stop", PyVal.int 2),
                   ("label", PyVal.str "L1")],
         observers := [] },
       { uid := 2,
         attrs := [("start", PyVal.int 3), ("stop", PyVal.int 4),
                   ("label", PyVal.str "L2")],
         observers := [] }] }

/-- Example UPDATE event: a truthy new start, an absent stop and an empty
(falsy) label. -/
def updW : LineUpdate :=
  { action := StateAction.UPDATE, uid := 1, start := PyVal.int 5,
    stop := PyVal.none, label := PyVal.str "" }

/-- Registry holding the example profile under its name. -/
def regW : Registry := [(profW.name, profW)]

/-- Profile that `from_json` builds from `objNoRegW` (defaults filled in). -/
def noRegProfileW : ExportProfile :=
  { name := "x", columns := [], ext := "dat", precision := 10,
    dateformat := TimeFormat.ISO8601, _userprofile := true }

/-- Profile that `from_json` builds from `objNameOnlyW`. -/
def nameOnlyProfileW : ExportProfile :=
  { name := "y", columns := [], ext := "dat", precision := 10,
    dateformat := TimeFormat.ISO8601, _userprofile := true }

/-!
Helper lemmas about the dict model.
-/

theorem dictLookup_insert_self (k : String) (v : α) (d : PyDict α) :
    dictLookup k (dictInsert k v d) = some v := by
  induction d with
  | nil => simp [dictInsert, dictLookup]
  | cons hd tl ih =>
      obtain ⟨k', v'⟩ := hd
      by_cases h : k' = k
      · simp [dictInsert, dictLookup, h]
      · simp [dictInsert, dictLookup, h, ih]

theorem dictLookup_insert_ne (k k' : String) (v : α) (d : PyDict α)
    (h : k' ≠ k) : dictLookup k' (dictInsert k v d) = dictLookup k' d := by
  have h' : k ≠ k' := Ne.symm h
  induction d with
  | nil => simp [dictInsert, dictLookup, h']
  | cons hd tl ih =>
      obtain ⟨k₁, v₁⟩ := hd
      by_cases h₁ : k₁ = k
      · subst h₁
        simp [dictInsert, dictLookup, h']
      · simp only [dictInsert, if_neg h₁, dictLookup]
        by_cases h₂ : k₁ = k'
        · simp [h₂]
        · simp [h₂, ih]

theorem dictKeys_insert_mem (k : String) (v : α) (d : PyDict α)
    (h : k ∈ dictKeys d) : dictKeys (dictInsert k v d) = dictKeys d := by
  induction d with
  | nil => simp [dictKeys] at h
  | cons hd tl ih =>
      obtain ⟨k₁, v₁⟩ := hd
      by_cases h₁ : k₁ = k
      · simp [dictInsert, dictKeys, h₁]
      · have hmem : k ∈ dictKeys tl := by
          rcases List.mem_cons.mp h with h' | h'
          · exact absurd h'.symm h₁
          · exact h'
        simp only [dictInsert, if_neg h₁, dictKeys, List.map_cons]
        exact congrArg (List.cons k₁) (ih hmem)

theorem dictKeys_insert_notMem (k : String) (v : α) (d : PyDict α)
    (h : k ∉ dictKeys d) : dictKeys (dictInsert k v d) = dictKeys d ++ [k] := by
  induction d with
  | nil => simp [dictInsert, dictKeys]
  | cons hd tl ih =>
      obtain ⟨k₁, v₁⟩ := hd
      have h₁ : k₁ ≠ k := by
        intro hh
        exact h (by simp [dictKeys, hh])
      have htl : k ∉ dictKeys tl := by
        intro hh
        exact h (List.mem_cons.mpr (Or.inr hh))
      simp only [dictInsert, if_neg h₁, dictKeys, List.map_cons, List.cons_append]
      exact congrArg (List.cons k₁) (ih htl)

/-- After an insertion into a well-formed dict, the inserted key occurs
exactly once among the keys. -/
theorem count_dictKeys_insert (k : String) (v : α) (d : PyDict α)
    (h : keysNodup d) : (dictKeys (dictInsert k v d)).count k = 1 := by
  by_cases hmem : k ∈ dictKeys d
  · rw [dictKeys_insert_mem k v d hmem]
    exact List.count_eq_one_of_mem h hmem
  · rw [dictKeys_insert_notMem k v d hmem]
    simp [List.count_append, List.count_eq_zero_of_not_mem hmem]

/-- Insertion preserves dict well-formedness. -/
theorem keysNodup_dictInsert (k : String) (v : α) (d : PyDict α)
    (h : keysNodup d) : keysNodup (dictInsert k v d) := by
  by_cases hmem : k ∈ dictKeys d
  · rw [keysNodup, dictKeys_insert_mem k v d hmem]
    exact h
  · rw [keysNodup, dictKeys_insert_notMem k v d hmem]
    simpa [List.nodup_append] using ⟨h, hmem⟩

/-- Membership from a successful lookup. -/
theorem dictLookup_mem {d : PyDict α} {k : String} {v : α}
    (h : dictLookup k d = some v) : (k, v) ∈ d := by
  induction d with
  | nil => simp [dictLookup] at h
  | cons hd tl ih =>
      obtain ⟨k₁, v₁⟩ := hd
      by_cases h₁ : k₁ = k
      · subst h₁
        simp [dictLookup] at h
        simp [h]
      · simp [dictLookup, h₁] at h
        exact List.mem_cons_of_mem _ (ih h)

/-- Decoding a list of encoded strings recovers the strings. -/
theorem strList_map_str (xs : List String) :
    strList (xs.map PyVal.str) = Except.ok xs := by
  induction xs with
  | nil => rfl
  | cons x xs ih => simp [strList, ih, Except.map]

/-- Decoding a list of string values succeeds. -/
theorem strList_all_str (xs : List PyVal)
    (h : xs.all (fun v => match v with
      | PyVal.str _ => true | _ => false) = true) :
    ∃ ys, strList xs = Except.ok ys := by
  induction xs with
  | nil => exact ⟨[], rfl⟩
  | cons x xs ih =>
      simp only [List.all_cons, Bool.and_eq_true] at h
      obtain ⟨ys, hys⟩ := ih h.2
      cases x <;> simp at h
      case str s => exact ⟨s :: ys, by simp [strList, hys, Except.map]⟩

/-- Values looked up in a schema-typed object are schema-typed for their
key. -/
theorem schemaTyped_lookup {obj : PyDict PyVal} {k : String} {v : PyVal}
    (hst : schemaTyped obj = true) (h : dictLookup k obj = some v) :
    schemaTypedVal k v = true := by
  unfold schemaTyped at hst
  rw [Bool.and_eq_true] at hst
  have hall := hst.1
  rw [List.all_eq_true] at hall
  exact hall (k, v) (dictLookup_mem h)

/-- Inversion for the schema type of `name`. -/
theorem stv_name {v : PyVal} (h : schemaTypedVal "name" v = true) :
    ∃ s, v = PyVal.str s := by
  cases v <;> simp [schemaTypedVal] at h ⊢

/-- Inversion for the schema type of `ext`. -/
theorem stv_ext {v : PyVal} (h : schemaTypedVal "ext" v = true) :
    ∃ s, v = PyVal.str s := by
  cases v <;> simp [schemaTypedVal] at h ⊢

/-- Inversion for the schema type of `dateformat`. -/
theorem stv_dateformat {v : PyVal} (h : schemaTypedVal "dateformat" v = true) :
    ∃ s, v = PyVal.str s := by
  cases v <;> simp [schemaTypedVal] at h ⊢

/-- Inversion for the schema type of `precision`. -/
theorem stv_precision {v : PyVal} (h : schemaTypedVal "precision" v = true) :
    ∃ n, v = PyVal.int n := by
  cases v <;> simp [schemaTypedVal] at h ⊢

/-- Inversion for the schema type of `_userprofile`. -/
theorem stv_userprofile {v : PyVal}
    (h : schemaTypedVal "_userprofile" v = true) :
    ∃ b, v = PyVal.bool b := by
  cases v <;> simp [schemaTypedVal] at h ⊢

/-- Inversion for the schema type of `register`. -/
theorem stv_register {v : PyVal} (h : schemaTypedVal "register" v = true) :
    ∃ b, v = PyVal.bool b := by
  cases v <;> simp [schemaTypedVal] at h ⊢

/-- Inversion for the schema type of `columns`. -/
theorem stv_columns {v : PyVal} (h : schemaTypedVal "columns" v = true) :
    v = PyVal.none ∨
      ∃ xs, v = PyVal.list xs ∧
        xs.all (fun w => match w with
          | PyVal.str _ => true | _ => false) = true := by
  cases v <;> simp [schemaTypedVal] at h ⊢
  assumption

/-- The constructor body errors only with `ValueError`, and only when the
`dateformat` argument is an unrecognized format string. -/
theorem init_error_inversion {reg : Registry} {nm : String}
    {cols : Option (List String)} {ext : String} {prec : Int}
    {dfmt : DateFmtArg} {up rg : Bool} {e : InitError}
    (h : ExportProfile.init reg nm cols ext prec dfmt up rg =
      Except.error e) :
    e = InitError.valueError ∧
      ∃ s, dfmt = DateFmtArg.ofStr s ∧
        TimeFormat.fromValue s = Option.none := by
  cases dfmt with
  | ofFmt t => simp [ExportProfile.init, resolveDateFmt] at h
  | ofStr s =>
      cases hf : TimeFormat.fromValue s with
      | none =>
          simp [ExportProfile.init, resolveDateFmt, hf] at h
          exact ⟨h.symm, s, rfl, hf⟩
      | some t => simp [ExportProfile.init, resolveDateFmt, hf] at h

/-- When the constructor body succeeds, the resulting registry is the old
one with the new profile registered exactly when the `register` flag is
set, and unchanged otherwise. -/
theorem init_ok_registry {reg : Registry} {nm : String}
    {cols : Option (List String)} {ext : String} {prec : Int}
    {dfmt : DateFmtArg} {up rg : Bool} {p : ExportProfile} {reg' : Registry}
    (h : ExportProfile.init reg nm cols ext prec dfmt up rg =
      Except.ok (p, reg')) :
    (rg = true → reg' = ExportProfile.register reg p) ∧
    (rg = false → reg' = reg) := by
  have hshape : ∀ t, resolveDateFmt dfmt = Except.ok t →
      reg' = (if rg then ExportProfile.register reg p else reg) := by
    intro t ht
    rw [ExportProfile.init, ht] at h
    have h' := Except.ok.inj h
    have hp := congrArg Prod.fst h'
    have hr := congrArg Prod.snd h'
    simp only at hp hr
    rw [hp] at hr
    exact hr.symm
  cases dfmt with
  | ofFmt t =>
      have := hshape t rfl
      cases rg <;> simp_all
  | ofStr s =>
      cases hf : TimeFormat.fromValue s with
      | none => rw [ExportProfile.init] at h; simp [resolveDateFmt, hf] at h
      | some t =>
          have := hshape t (by simp [resolveDateFmt, hf])
          cases rg <;> simp_all

/-- Under schema typing and successful call binding, the `cls(**obj)` call
reduces to the constructor body on the extracted arguments, the
`dateformat` argument reflects the JSON entry, and the `register` flag is
`registerArg obj`. -/
theorem initFromDict_shape (reg : Registry) (obj : PyDict PyVal)
    (hst : schemaTyped obj = true) (hb : bindingOk obj = true) :
    ∃ nm cols ext prec dfmt up,
      ExportProfile.initFromDict reg obj =
        ExportProfile.init reg nm cols ext prec dfmt up (registerArg obj) ∧
      ((dictLookup "dateformat" obj = Option.none ∧
          dfmt = DateFmtArg.ofFmt TimeFormat.ISO8601) ∨
       (∃ s, dictLookup "dateformat" obj = some (PyVal.str s) ∧
          dfmt = DateFmtArg.ofStr s)) := by
  have hnmS : (dictLookup "name" obj).isSome := by
    have hb' := hb
    unfold bindingOk at hb'
    rw [Bool.and_eq_true] at hb'
    exact hb'.2
  obtain ⟨vn, hvn⟩ := Option.isSome_iff_exists.mp hnmS
  obtain ⟨nm, rfl⟩ := stv_name (schemaTyped_lookup hst hvn)
  obtain ⟨colsArg, hcols⟩ :
      ∃ c, decodeColumns (dictLookup "columns" obj) = Except.ok c := by
    cases hc : dictLookup "columns" obj with
    | none => exact ⟨Option.none, rfl⟩
    | some v =>
        rcases stv_columns (schemaTyped_lookup hst hc) with rfl | ⟨xs, rfl, hall⟩
        · exact ⟨Option.none, rfl⟩
        · obtain ⟨ys, hys⟩ := strList_all_str xs hall
          exact ⟨some ys, by simp [decodeColumns, hys, Except.map]⟩
  obtain ⟨extArg, hext⟩ :
      ∃ s, getStrField obj "ext" "dat" = Except.ok s := by
    cases hc : dictLookup "ext" obj with
    | none => exact ⟨"dat", by simp [getStrField, hc]⟩
    | some v =>
        obtain ⟨s, rfl⟩ := stv_ext (schemaTyped_lookup hst hc)
        exact ⟨s, by simp [getStrField, hc]⟩
  obtain ⟨precArg, hprec⟩ :
      ∃ n, getIntField obj "precision" 10 = Except.ok n := by
    cases hc : dictLookup "precision" obj with
    | none => exact ⟨10, by simp [getIntField, hc]⟩
    | some v =>
        obtain ⟨n, rfl⟩ := stv_precision (schemaTyped_lookup hst hc)
        exact ⟨n, by simp [getIntField, hc]⟩
  obtain ⟨dfmtArg, hdfmt, hdisj⟩ :
      ∃ d, getDateFmtArg obj = Except.ok d ∧
        ((dictLookup "dateformat" obj = Option.none ∧
            d = DateFmtArg.ofFmt TimeFormat.ISO8601) ∨
         (∃ s, dictLookup "dateformat" obj = some (PyVal.str s) ∧
            d = DateFmtArg.ofStr s)) := by
    cases hc : dictLookup "dateformat" obj with
    | none =>
        exact ⟨DateFmtArg.ofFmt TimeFormat.ISO8601,
          by simp [getDateFmtArg, hc], Or.inl ⟨rfl, rfl⟩⟩
    | some v =>
        obtain ⟨s, rfl⟩ := stv_dateformat (schemaTyped_lookup hst hc)
        exact ⟨DateFmtArg.ofStr s, by simp [getDateFmtArg, hc],
          Or.inr ⟨s, rfl, rfl⟩⟩
  obtain ⟨upArg, hup⟩ :
      ∃ b, getBoolField obj "_userprofile" true = Except.ok b := by
    cases hc : dictLookup "_userprofile" obj with
    | none => exact ⟨true, by simp [getBoolField, hc]⟩
    | some v =>
        obtain ⟨b, rfl⟩ := stv_userprofile (schemaTyped_lookup hst hc)
        exact ⟨b, by simp [getBoolField, hc]⟩
  have hrg : getBoolField obj "register" true = Except.ok (registerArg obj) := by
    cases hc : dictLookup "register" obj with
    | none => simp [getBoolField, registerArg, hc]
    | some v =>
        obtain ⟨b, rfl⟩ := stv_register (schemaTyped_lookup hst hc)
        simp [getBoolField, registerArg, hc]
  refine ⟨nm, colsArg, extArg, precArg, dfmtArg, upArg, ?_, hdisj⟩
  rw [ExportProfile.initFromDict, if_pos hb, hvn]
  simp [hcols, hext, hprec, hdfmt, hup, hrg, bind, Except.bind]

/-- Folding sub-tab states into a dict does not touch keys that are no
sub-tab's type name. -/
theorem dictLookup_foldl_notMem (tabs : List SubTabM) (init : PyDict PyVal)
    (k : String) (h : k ∉ tabs.map SubTabM.typeName) :
    dictLookup k
        (tabs.foldl (fun st t => dictInsert t.typeName t.get_state st) init) =
      dictLookup k init := by
  induction tabs generalizing init with
  | nil => rfl
  | cons t ts ih =>
      rw [List.map_cons] at h
      have hne : k ≠ t.typeName := fun hh => h (by simp [hh])
      have hts : k ∉ ts.map SubTabM.typeName := fun hh => h (by simp [hh])
      rw [List.foldl_cons, ih _ hts, dictLookup_insert_ne _ _ _ _ hne]

/-- Folding sub-tab states into a dict stores each sub-tab's state under
its type name, when type names are unique. -/
theorem dictLookup_foldl_mem (tabs : List SubTabM) (init : PyDict PyVal)
    (t : SubTabM) (hnodup : (tabs.map SubTabM.typeName).Nodup)
    (hmem : t ∈ tabs) :
    dictLookup t.typeName
        (tabs.foldl (fun st t => dictInsert t.typeName t.get_state st) init) =
      some t.get_state := by
  induction tabs generalizing init with
  | nil => cases hmem
  | cons hd ts ih =>
      rw [List.map_cons, List.nodup_cons] at hnodup
      rcases List.mem_cons.mp hmem with rfl | hmem'
      · rw [List.foldl_cons,
          dictLookup_foldl_notMem ts _ t.typeName hnodup.1]
        exact dictLookup_insert_self _ _ _
      · rw [List.foldl_cons]
        exact ih _ hnodup.2 hmem'

/-- In a child list with unique identifiers, filtering for a member's
identifier yields exactly that member. -/
theorem filter_uid_single (l : List Node) (x : Node)
    (hnodup : (l.map Node.uid).Nodup) (hmem : x ∈ l) :
    l.filter (fun d => decide (d.uid = x.uid)) = [x] := by
  induction l with
  | nil => cases hmem
  | cons hd tl ih =>
      rw [List.map_cons, List.nodup_cons] at hnodup
      rcases List.mem_cons.mp hmem with rfl | hmem'
      · rw [List.filter_cons, if_pos (by simp)]
        have htl : tl.filter (fun d => decide (d.uid = x.uid)) = [] := by
          rw [List.filter_eq_nil_iff]
          intro d hd
          simp only [decide_eq_true_eq]
          intro hh
          exact hnodup.1 (hh ▸ List.mem_map_of_mem _ hd)
        rw [htl]
      · have hx : x.uid ∈ tl.map Node.uid := List.mem_map_of_mem _ hmem'
        have hne : ¬ hd.uid = x.uid := fun hh => hnodup.1 (hh ▸ hx)
        rw [List.filter_cons, if_neg (by simpa using hne)]
        exact ih hnodup.2 hmem'

/-- Callbacks fired on deletion are registered observers of the node. -/
theorem mem_firedOnDelete {a : Nat} {c : Node}
    (h : a ∈ Node.firedOnDelete c) : a ∈ c.observers.map Prod.fst := by
  unfold Node.firedOnDelete at h
  obtain ⟨ob, hob, rfl⟩ := List.mem_map.mp h
  exact List.mem_map_of_mem _ (List.mem_of_mem_filter hob)

/-- Registering a DELETE observer appends its callback to the list fired
on deletion. -/
theorem firedOnDelete_register_delete (c : Node) (cb : Nat) :
    Node.firedOnDelete (c.register_observer cb StateAction.DELETE) =
      Node.firedOnDelete c ++ [cb] := by
  unfold Node.firedOnDelete Node.register_observer
  rw [List.filter_append, List.map_append]
  simp

/-- The segment update leaves the segment identifier unchanged. -/
theorem applySegmentUpdate_uid (c : Node) (u : LineUpdate) :
    (applySegmentUpdate c u).1.uid = c.uid := by
  by_cases h1 : u.start.truthy = true <;>
    by_cases h2 : u.stop.truthy = true <;>
      by_cases h3 : u.label.truthy = true <;>
        simp [applySegmentUpdate, Node.set_attr, h1, h2, h3]

/-- The start attribute after a segment update: written exactly when the
new value is truthy. -/
theorem applySegmentUpdate_start (c : Node) (u : LineUpdate) :
    (applySegmentUpdate c u).1.get_attr "start" =
      (if u.start.truthy then some u.start else c.get_attr "start") := by
  by_cases h1 : u.start.truthy = true <;>
    by_cases h2 : u.stop.truthy = true <;>
      by_cases h3 : u.label.truthy = true <;>
        simp [applySegmentUpdate, Node.set_attr, Node.get_attr, h1, h2, h3,
          dictLookup_insert_self, dictLookup_insert_ne]

/-- The stop attribute after a segment update: written exactly when the
new value is truthy. -/
theorem applySegmentUpdate_stop (c : Node) (u : LineUpdate) :
    (applySegmentUpdate c u).1.get_attr "stop" =
      (if u.stop.truthy then some u.stop else c.get_attr "stop") := by
  by_cases h1 : u.start.truthy = true <;>
    by_cases h2 : u.stop.truthy = true <;>
      by_cases h3 : u.label.truthy = true <;>
        simp [applySegmentUpdate, Node.set_attr, Node.get_attr, h1, h2, h3,
          dictLookup_insert_self, dictLookup_insert_ne]

/-- The label attribute after a segment update: written exactly when the
new value is truthy. -/
theorem applySegmentUpdate_label (c : Node) (u : LineUpdate) :
    (applySegmentUpdate c u).1.get_attr "label" =
      (if u.label.truthy then some u.label else c.get_attr "label") := by
  by_cases h1 : u.start.truthy = true <;>
    by_cases h2 : u.stop.truthy = true <;>
      by_cases h3 : u.label.truthy = true <;>
        simp [applySegmentUpdate, Node.set_attr, Node.get_attr, h1, h2, h3,
          dictLookup_insert_self, dictLookup_insert_ne]

/-- A segment update touches no attribute other than start, stop and
label. -/
theorem applySegmentUpdate_frame (c : Node) (u : LineUpdate) (k : String)
    (hk1 : k ≠ "start") (hk2 : k ≠ "stop") (hk3 : k ≠ "label") :
    (applySegmentUpdate c u).1.get_attr k = c.get_attr k := by
  by_cases h1 : u.start.truthy = true <;>
    by_cases h2 : u.stop.truthy = true <;>
      by_cases h3 : u.label.truthy = true <;>
        simp [applySegmentUpdate, Node.set_attr, Node.get_attr, h1, h2, h3,
          dictLookup_insert_ne _ _ _ _ hk1, dictLookup_insert_ne _ _ _ _ hk2,
          dictLookup_insert_ne _ _ _ _ hk3]

/-!
Claim theorems.
-/

/-- C3: serializing any ExportProfile with `to_json` and deserializing the
resulting document with `from_json` yields exactly the original profile —
every field (name, columns, ext, precision, dateformat, `_userprofile` and
hence the derived readonly flag) equals the original's — and registers it
under its name. -/
theorem c3_export_profile_json_roundtrip (reg : Registry)
    (p : ExportProfile) :
    ExportProfile.from_json reg (ExportProfile.to_json p) =
      Except.ok (p, ExportProfile.register reg p) := by
  obtain ⟨nm, cols, ext, prec, dfmt, up⟩ := p
  cases dfmt
  simp [ExportProfile.from_json, ExportProfile.initFromDict,
    ExportProfile.to_json, bindingOk, allowedKeys, dictLookup, decodeColumns,
    strList_map_str, getStrField, getIntField, getBoolField, getDateFmtArg,
    ExportProfile.init, resolveDateFmt, TimeFormat.fromValue,
    TimeFormat.value, Except.map, bind, Except.bind]

/-- C4: registering two profiles with the same name in sequence leaves
exactly one entry under that name — the second profile — and `names()`
yields that name exactly once. -/
theorem c4_register_same_name_last_wins (reg : Registry)
    (p₁ p₂ : ExportProfile) (hn : keysNodup reg)
    (_hname : p₁.name = p₂.name) :
    dictLookup p₂.name
        (ExportProfile.register (ExportProfile.register reg p₁) p₂) =
      some p₂ ∧
    (ExportProfile.names
        (ExportProfile.register (ExportProfile.register reg p₁) p₂)).count
      p₂.name = 1 := by
  refine ⟨dictLookup_insert_self _ _ _, ?_⟩
  exact count_dictKeys_insert _ _ _ (keysNodup_dictInsert _ _ _ hn)

/-- Witness for C4 on the empty registry and two concrete profiles sharing
the name "airborne". -/
theorem c4_witness :
    keysNodup ([] : Registry) ∧ profW.name = profW₂.name ∧
    dictLookup profW₂.name
        (ExportProfile.register (ExportProfile.register [] profW) profW₂) =
      some profW₂ ∧
    (ExportProfile.names
        (ExportProfile.register (ExportProfile.register [] profW) profW₂)).count
      profW₂.name = 1 := by
  have h := c4_register_same_name_last_wins [] profW profW₂ List.nodup_nil rfl
  exact ⟨List.nodup_nil, rfl, h.1, h.2⟩

/-- C5 (counterexample): the claim that constructing or registering a
profile never raises, with JSON parse failure the only failure mode of
`from_json`, is false on the code: passing an unrecognized `dateformat`
string to the constructor raises `ValueError`, and `from_json` raises the
same `ValueError` on a well-formed, schema-conforming JSON object — not a
parse/decode failure. -/
theorem c5_counterexample :
    ExportProfile.init [] "x" Option.none "dat" 10 (DateFmtArg.ofStr "%Y")
        true true = Except.error InitError.valueError ∧
    ExportProfile.from_json [] objBadFmtW =
      Except.error InitError.valueError ∧
    schemaTyped objBadFmtW = true ∧ bindingOk objBadFmtW = true :=
  ⟨rfl, rfl, rfl, rfl⟩

/-- C5 (amended): beyond the JSON parse failure of `json.loads`, the only
errors the export-profile registry can raise on a schema-typed input are a
`ValueError` when the `dateformat` entry is a string naming no recognized
time format, and a `TypeError` from call binding when the object carries
an unexpected key or lacks the required `name` key; `register` itself
never raises. -/
theorem c5_amended_validation_errors (reg : Registry) (obj : PyDict PyVal)
    (hst : schemaTyped obj = true) :
    ∀ e, ExportProfile.initFromDict reg obj = Except.error e →
      (e = InitError.typeError ∧ bindingOk obj = false) ∨
      (e = InitError.valueError ∧
        ∃ s, dictLookup "dateformat" obj = some (PyVal.str s) ∧
          TimeFormat.fromValue s = Option.none) := by
  intro e he
  by_cases hb : bindingOk obj = true
  · obtain ⟨nm, cols, ext, prec, dfmt, up, heq, hdisj⟩ :=
      initFromDict_shape reg obj hst hb
    rw [heq] at he
    obtain ⟨he', s, hdf, hfrom⟩ := init_error_inversion he
    rcases hdisj with ⟨hnone, hfmt⟩ | ⟨s', hsome, hfmt⟩
    · rw [hfmt] at hdf
      exact absurd hdf (by simp)
    · rw [hfmt] at hdf
      obtain rfl := DateFmtArg.ofStr.inj hdf.symm
      exact Or.inr ⟨he', s, hsome, hfrom⟩
  · rw [ExportProfile.initFromDict, if_neg hb] at he
    exact Or.inl ⟨(Except.error.inj he).symm, Bool.not_eq_true _ ▸ hb⟩

/-- Witness for C5 (amended) at the concrete bad-dateformat object: the
error raised is the `ValueError`, and its cause is the unrecognized
`dateformat` string. -/
theorem c5_witness :
    schemaTyped objBadFmtW = true ∧
    ((InitError.valueError = InitError.typeError ∧
        bindingOk objBadFmtW = false) ∨
     (InitError.valueError = InitError.valueError ∧
       ∃ s, dictLookup "dateformat" objBadFmtW = some (PyVal.str s) ∧
         TimeFormat.fromValue s = Option.none)) :=
  ⟨rfl, c5_amended_validation_errors [] objBadFmtW rfl InitError.valueError rfl⟩

/-- C6 (counterexample): the claim that `from_json` always registers the
deserialized profile and offers no way to suppress registration is false
on the code: a valid profile JSON object carrying `register: false` is
deserialized successfully and the registry stays empty — the `register`
key of the input is forwarded to the constructor and suppresses the
side effect. -/
theorem c6_counterexample :
    ExportProfile.from_json [] objNoRegW =
      Except.ok (noRegProfileW, ([] : Registry)) ∧
    dictLookup noRegProfileW.name ([] : Registry) = Option.none ∧
    ExportProfile.names ([] : Registry) = [] :=
  ⟨rfl, rfl, rfl⟩

/-- C6 (amended): for every schema-typed profile JSON object that does not
carry a falsy `register` key — in particular for every `to_json` output,
which never emits a `register` key — `from_json` registers the
deserialized profile under its name as a side effect of construction; a
`register: false` key in the input JSON is the one way to suppress this
registration. -/
theorem c6_amended_registration_side_effect (reg : Registry)
    (obj : PyDict PyVal) (p : ExportProfile) (reg' : Registry)
    (hst : schemaTyped obj = true)
    (hok : ExportProfile.from_json reg obj = Except.ok (p, reg')) :
    (registerArg obj = true → reg' = ExportProfile.register reg p) ∧
    (registerArg obj = false → reg' = reg) ∧
    ∀ q : ExportProfile, registerArg (ExportProfile.to_json q) = true := by
  by_cases hb : bindingOk obj = true
  · obtain ⟨nm, cols, ext, prec, dfmt, up, heq, hdisj⟩ :=
      initFromDict_shape reg obj hst hb
    rw [ExportProfile.from_json, heq] at hok
    have h := init_ok_registry hok
    exact ⟨h.1, h.2, fun q => rfl⟩
  · rw [ExportProfile.from_json, ExportProfile.initFromDict, if_neg hb] at hok
    exact absurd hok (by simp)

/-- Witness for C6 (amended) at the concrete name-only object: lacking a
`register` key, its deserialization registers the profile under its name. -/
theorem c6_witness :
    schemaTyped objNameOnlyW = true ∧
    ExportProfile.from_json [] objNameOnlyW =
      Except.ok (nameOnlyProfileW, [("y", nameOnlyProfileW)]) ∧
    registerArg objNameOnlyW = true ∧
    (registerArg objNameOnlyW = true →
      [("y", nameOnlyProfileW)] = ExportProfile.register [] nameOnlyProfileW) ∧
    (registerArg objNameOnlyW = false →
      [("y", nameOnlyProfileW)] = ([] : Registry)) := by
  have h := c6_amended_registration_side_effect [] objNameOnlyW
    nameOnlyProfileW [("y", nameOnlyProfileW)] rfl rfl
  exact ⟨rfl, rfl, rfl, h.1, h.2.1⟩

/-- C9: copying a registered profile returns a profile equal to the
original in every field, and as a side effect registers the copy,
replacing the registry entry under the profile's name with the copy while
leaving every other name's entry unchanged. -/
theorem c9_copy_registers_copy (reg : Registry) (p : ExportProfile)
    (hreg : dictLookup p.name reg = some p) :
    ExportProfile.copy reg p = Except.ok (p, ExportProfile.register reg p) ∧
    dictLookup p.name (ExportProfile.register reg p) = some p ∧
    ∀ k, k ≠ p.name →
      dictLookup k (ExportProfile.register reg p) = dictLookup k reg := by
  refine ⟨?_, dictLookup_insert_self _ _ _,
    fun k hk => dictLookup_insert_ne _ _ _ _ hk⟩
  obtain ⟨nm, cols, ext, prec, dfmt, up⟩ := p
  rfl

/-- Witness for C9 on a registry holding the example profile: the copy
call succeeds with a profile equal to the original, the entry under its
name is the copy, and an unrelated name is unaffected. -/
theorem c9_witness :
    dictLookup profW.name regW = some profW ∧
    ExportProfile.copy regW profW =
      Except.ok (profW, ExportProfile.register regW profW) ∧
    dictLookup profW.name (ExportProfile.register regW profW) = some profW ∧
    dictLookup "marine" (ExportProfile.register regW profW) =
      dictLookup "marine" regW := by
  have h := c9_copy_registers_copy regW profW (by decide)
  exact ⟨by decide, h.1, h.2.1, h.2.2 "marine" (by decide)⟩

/-- C1: for every FileLoader run, exactly one of the two notifications
fires.  If the loading function returns a value, exactly one `loaded`
notification carrying that result and zero `error` notifications are
emitted; if it raises, exactly one `error` notification carrying the
exception and zero `loaded` notifications are emitted; in every case
exactly one notification is emitted — never both, never neither. -/
theorem c1_fileloader_exactly_one_notification {π ε α : Type}
    (l : FileLoader π ε α) :
    (FileLoader.run l).2.length = 1 ∧
    (∀ a : α, l.func l.path = Except.ok a →
      countLoaded (FileLoader.run l).2 = 1 ∧
      countError (FileLoader.run l).2 = 0 ∧
      (FileLoader.run l).2 = [LoaderNotif.loaded a]) ∧
    (∀ e : ε, l.func l.path = Except.error e →
      countError (FileLoader.run l).2 = 1 ∧
      countLoaded (FileLoader.run l).2 = 0 ∧
      (FileLoader.run l).2 = [LoaderNotif.error e]) := by
  refine ⟨?_, ?_, ?_⟩
  · cases h : l.func l.path <;> simp [FileLoader.run, h]
  · intro a ha
    simp [FileLoader.run, ha, countLoaded, countError]
  · intro e he
    simp [FileLoader.run, he, countLoaded, countError]

/-- Witness for C1 at the two concrete loaders of the test file: the
succeeding loader emits one `loaded` and zero `error` notifications, the
raising loader emits one `error` and zero `loaded` notifications. -/
theorem c1_witness :
    okLoaderW.func okLoaderW.path = Except.ok 41 ∧
    failLoaderW.func failLoaderW.path = Except.error "FileNotFoundError" ∧
    countLoaded (FileLoader.run okLoaderW).2 = 1 ∧
    countError (FileLoader.run okLoaderW).2 = 0 ∧
    countError (FileLoader.run failLoaderW).2 = 1 ∧
    countLoaded (FileLoader.run failLoaderW).2 = 0 := by
  have hok := (c1_fileloader_exactly_one_notification okLoaderW).2.1 41 rfl
  have herr := (c1_fileloader_exactly_one_notification failLoaderW).2.2
    "FileNotFoundError" rfl
  exact ⟨rfl, rfl, hok.1, hok.2.1, herr.1, herr.2.1⟩

/-- C8 (code bug): in the construction order of `DataSetTab.__init__`,
each sub-tab's `sigLoaded` is emitted exactly once, and the segment tab's
emission is delivered to the parent's `_tab_loaded` slot exactly once; but
the transform tab emits its `sigLoaded` from the last line of its own
constructor, before the parent connects `_tab_loaded` to it, so that
emission is delivered to no slot at all and the parent never restores the
transform tab's state. -/
theorem c8_transform_tab_loaded_never_delivered :
    emitCount dataSetTabTrace sigLoadedSegment = 1 ∧
    emitCount dataSetTabTrace sigLoadedTransform = 1 ∧
    (qtRun dataSetTabTrace).2.count (sigLoadedSegment, slotTabLoaded) = 1 ∧
    (qtRun dataSetTabTrace).2.count (sigLoadedTransform, slotTabLoaded) = 0 ∧
    (qtRun dataSetTabTrace).2 = [(sigLoadedSegment, slotTabLoaded)] := by
  decide

/-- C2: on a node whose child identifiers are unique, registering a fresh
callback for action DELETE on a specific child and then removing that
child invokes the callback exactly once, while removing a different child
(on which the callback is not registered) does not invoke it. -/
theorem c2_delete_observer_fires_once (n : ParentNode) (c : Node)
    (cb u' : Nat)
    (hfresh : cb ∉ c.observers.map Prod.fst)
    (hmem : c.register_observer cb StateAction.DELETE ∈ n.children)
    (hnodup : (n.children.map Node.uid).Nodup)
    (_hother : u' ≠ c.uid)
    (hnotOther : ∀ d ∈ n.children, d.uid = u' →
      cb ∉ d.observers.map Prod.fst) :
    (n.remove_child c.uid).2.count cb = 1 ∧
    cb ∉ (n.remove_child u').2 := by
  constructor
  · have hfilter :
        n.children.filter (fun d => decide (d.uid = c.uid)) =
          [c.register_observer cb StateAction.DELETE] :=
      filter_uid_single n.children
        (c.register_observer cb StateAction.DELETE) hnodup hmem
    unfold ParentNode.remove_child
    rw [hfilter]
    simp only [List.flatMap_cons, List.flatMap_nil, List.append_nil]
    rw [firedOnDelete_register_delete, List.count_append]
    have hzero : (Node.firedOnDelete c).count cb = 0 :=
      List.count_eq_zero_of_not_mem (fun hh => hfresh (mem_firedOnDelete hh))
    simp [hzero]
  · intro hcb
    unfold ParentNode.remove_child at hcb
    obtain ⟨d, hd, hcbd⟩ := List.mem_flatMap.mp hcb
    have hd' : d ∈ n.children := List.mem_of_mem_filter hd
    have hdu : d.uid = u' := by
      have := List.of_mem_filter hd
      simpa using this
    exact hnotOther d hd' hdu (mem_firedOnDelete hcbd)

/-- Witness for C2 on the example dataset node: callback 5 is registered
for DELETE on the child with uid 1; removing uid 1 fires callback 5
exactly once, removing uid 2 does not fire it. -/
theorem c2_witness :
    5 ∉ segW.observers.map Prod.fst ∧
    segW.register_observer 5 StateAction.DELETE ∈ parentW.children ∧
    (parentW.children.map Node.uid).Nodup ∧
    (2 : Nat) ≠ segW.uid ∧
    (parentW.remove_child segW.uid).2.count 5 = 1 ∧
    5 ∉ (parentW.remove_child 2).2 := by
  have h := c2_delete_observer_fires_once parentW segW 5 2 (by decide)
    (List.Mem.head _) (by decide) (by decide) (by decide)
  exact ⟨by decide, List.Mem.head _, by decide, by decide, h.1, h.2⟩

/-- C7: the workspace tab's nested state mapping round-trips.  With
distinct sub-tab type names, `save_state` stores each sub-tab's
`get_state()` under the sub-tab's type name, and restoration hands each
sub-tab exactly the value stored under its own type name, or the empty
mapping when its type name is absent from the saved state. -/
theorem c7_workspace_state_roundtrip (tabs : List SubTabM) (t : SubTabM)
    (hnodup : (tabs.map SubTabM.typeName).Nodup) :
    (t ∈ tabs → tab_loaded_state (save_state tabs) t = t.get_state) ∧
    (t.typeName ∉ tabs.map SubTabM.typeName →
      tab_loaded_state (save_state tabs) t = PyVal.dict []) := by
  constructor
  · intro hmem
    unfold tab_loaded_state save_state
    rw [dictLookup_foldl_mem tabs [] t hnodup hmem]
  · intro habs
    unfold tab_loaded_state save_state
    rw [dictLookup_foldl_notMem tabs [] t.typeName habs]
    rfl

/-- Witness for C7 on the two sub-tabs of `DataSetTab`: each gets its own
saved state back (the transform tab's being `None`, as its `get_state`
returns), and a tab type absent from the saved state gets the empty
mapping. -/
theorem c7_witness :
    (tabsW.map SubTabM.typeName).Nodup ∧
    tab_loaded_state (save_state tabsW) segTabW = segTabW.get_state ∧
    tab_loaded_state (save_state tabsW) transTabW = transTabW.get_state ∧
    tab_loaded_state (save_state tabsW) otherTabW = PyVal.dict [] := by
  have hseg := (c7_workspace_state_roundtrip tabsW segTabW (by decide)).1
    (List.Mem.head _)
  have htrans := (c7_workspace_state_roundtrip tabsW transTabW (by decide)).1
    (List.Mem.tail _ (List.Mem.head _))
  have hother := (c7_workspace_state_roundtrip tabsW otherTabW (by decide)).2
    (by decide)
  exact ⟨by decide, hseg, htrans, hother⟩

/-- C10: for a LineUpdate with action UPDATE handled by the segment-select
controller, only those of the fields start, stop and label whose new value
is truthy are written onto the target segment's attributes; a field whose
new value is absent or falsy (such as an empty label) leaves the
corresponding attribute unchanged, every other attribute of the target is
unchanged, and every other segment is untouched. -/
theorem c10_update_writes_only_truthy_fields (n : ParentNode)
    (u : LineUpdate) (gid : Nat)
    (hact : u.action = StateAction.UPDATE)
    (_hnodup : (n.children.map Node.uid).Nodup) :
    (slot_segment_changed n u gid).1.children.length =
      n.children.length ∧
    ∀ (i : Nat) (c : Node), n.children[i]? = some c →
      (c.uid ≠ u.uid →
        (slot_segment_changed n u gid).1.children[i]? = some c) ∧
      (c.uid = u.uid →
        ∃ c', (slot_segment_changed n u gid).1.children[i]? = some c' ∧
          c'.uid = c.uid ∧
          c'.get_attr "start" =
            (if u.start.truthy then some u.start else c.get_attr "start") ∧
          c'.get_attr "stop" =
            (if u.stop.truthy then some u.stop else c.get_attr "stop") ∧
          c'.get_attr "label" =
            (if u.label.truthy then some u.label else c.get_attr "label") ∧
          ∀ k, k ≠ "start" → k ≠ "stop" → k ≠ "label" →
            c'.get_attr k = c.get_attr k) := by
  obtain ⟨act, uuid, ustart, ustop, ulabel⟩ := u
  simp only at hact
  subst hact
  constructor
  · simp [slot_segment_changed]
  · intro i c hc
    constructor
    · intro hne
      simp only at hne
      simp [slot_segment_changed, List.getElem?_map, hc, hne]
    · intro heq
      refine ⟨(applySegmentUpdate c
          ⟨StateAction.UPDATE, uuid, ustart, ustop, ulabel⟩).1, ?_,
        applySegmentUpdate_uid _ _, applySegmentUpdate_start _ _,
        applySegmentUpdate_stop _ _, applySegmentUpdate_label _ _,
        fun k hk1 hk2 hk3 => applySegmentUpdate_frame _ _ k hk1 hk2 hk3⟩
      simp only at heq
      simp [slot_segment_changed, List.getElem?_map, hc, heq]

/-- Witness for C10 on the example dataset node and UPDATE event (truthy
new start, absent stop, empty label): instantiated conclusion of the C10
theorem at those inputs. -/
theorem c10_witness :
    updW.action = StateAction.UPDATE ∧
    (parentUpdW.children.map Node.uid).Nodup ∧
    ((slot_segment_changed parentUpdW updW 9).1.children.length =
        parentUpdW.children.length ∧
      ∀ (i : Nat) (c : Node), parentUpdW.children[i]? = some c →
        (c.uid ≠ updW.uid →
          (slot_segment_changed parentUpdW updW 9).1.children[i]? = some c) ∧
        (c.uid = updW.uid →
          ∃ c', (slot_segment_changed parentUpdW updW 9).1.children[i]? =
              some c' ∧
            c'.uid = c.uid ∧
            c'.get_attr "start" =
              (if updW.start.truthy then some updW.start
               else c.get_attr "start") ∧
            c'.get_attr "stop" =
              (if updW.stop.truthy then some updW.stop
               else c.get_attr "stop") ∧
            c'.get_attr "label" =
              (if updW.label.truthy then some updW.label
               else c.get_attr "label") ∧
            ∀ k, k ≠ "start" → k ≠ "stop" → k ≠ "label" →
              c'.get_attr k = c.get_attr k)) :=
  ⟨rfl, by decide,
    c10_update_writes_only_truthy_fields parentUpdW updW 9 rfl (by decide)⟩

end DGP
